import Mathlib

/-!
Verification development for the `extractor` repository.

The Python sources are shallowly embedded as Lean definitions:

* `src/src/extractors/paper_data.py` (`PaperDataExtractor`, `PaperMetadata`)
* `src/src/validation/quality_checker.py` (`QualityChecker`, `QualityMetrics`)
* `src/src/exporters/validator.py` (`DataValidator`)
* `src/src/review.py` (`SystematicReview.search_databases`)

Modelling conventions:

* Python dict raw records carry string or list-of-string values (spec section 3:
  a RawRecord maps field names to string / list-of-strings values), so each
  candidate field is an `Option String` (key absent vs. present) or a
  `StrOrList` where the code accepts either shape.
* Python exceptions become `Except`; the `ValueError` raised on a bad title is
  the error the spec names `ExtractionError`.
* Python character classes (`\d`, `\w`, whitespace) are modelled over ASCII,
  which is exact for ASCII input.
* Scores computed with Python floats are modelled as exact rationals; every
  claim settled here is about differences far larger than float rounding.
-/

/-- Whitespace characters stripped by Python `str.strip()` and matched by the
regex class `\s` (ASCII fragment). -/
def isPyWs (c : Char) : Bool :=
  c = ' ' || c = '\t' || c = '\n' || c = '\x0d' || c = '\x0b' || c = '\x0c'

/-- Python `str.strip()` on the character list. -/
def stripChars (cs : List Char) : List Char :=
  ((cs.dropWhile isPyWs).reverse.dropWhile isPyWs).reverse

/-- Python `str.strip()`. -/
def pyStrip (s : String) : String := ⟨stripChars s.data⟩

/-- Helper for Python `str.split()`: accumulate the current word (reversed). -/
def pyWordsAux : List Char → List Char → List (List Char)
  | [], cur => if cur.isEmpty then [] else [cur.reverse]
  | c :: rest, cur =>
    if isPyWs c then
      if cur.isEmpty then pyWordsAux rest [] else cur.reverse :: pyWordsAux rest []
    else pyWordsAux rest (c :: cur)

/-- Python `str.split()` with no separator: whitespace-delimited words, no
empty pieces. -/
def pyWords (cs : List Char) : List (List Char) := pyWordsAux cs []

/-- Boolean test that `p` is an initial segment of `l` (regex literal match). -/
def leadMatch : List Char → List Char → Bool
  | [], _ => true
  | _ :: _, [] => false
  | p :: ps, c :: cs => p = c && leadMatch ps cs

/-- Boolean contiguous-substring test, Python `needle in hay`. -/
def isSubstr (needle : List Char) : List Char → Bool
  | [] => leadMatch needle []
  | c :: rest => leadMatch needle (c :: rest) || isSubstr needle rest

/-- Digit run value, Python `int` on a digit string. -/
def digitsToNat (cs : List Char) : Nat :=
  cs.foldl (fun a c => a * 10 + (c.toNat - 48)) 0

/-- ASCII model of the regex class `\w`. -/
def isWordChar (c : Char) : Bool := c.isAlphanum || c = '_'

/-- Character class `[-._;()/:\w]` of `PaperDataExtractor.DOI_PATTERN`. -/
def isDoiSuffixChar (c : Char) : Bool :=
  c = '-' || c = '.' || c = '_' || c = ';' || c = '(' || c = ')' ||
    c = '/' || c = ':' || isWordChar c

/-- Attempt of the regex `10.\d{4,9}/[-._;()/:\w]+` (paper_data.py line 20) at
the head of the character list; returns the length of the match.  The `.` after
`10` is the code's unescaped regex dot: it matches any character other than a
newline.  No backtracking case is lost: the digits of `\d{4,9}` are followed by
a literal `/`, and a digit is never `/`, so the greedy digit run is forced. -/
def doiMatchLen (cs : List Char) : Option Nat :=
  match cs with
  | '1' :: '0' :: c :: rest =>
    if c = '\n' then none
    else
      let d := (rest.takeWhile Char.isDigit).length
      if 4 ≤ d ∧ d ≤ 9 then
        match rest.drop d with
        | '/' :: rest2 =>
          let m := (rest2.takeWhile isDoiSuffixChar).length
          if 1 ≤ m then some (3 + d + 1 + m) else none
        | _ => none
      else none
  | _ => none

/-- Python `re.search` with `DOI_PATTERN`: leftmost match, as a string. -/
def doiSearchChars : List Char → Option (List Char)
  | [] => none
  | c :: rest =>
    match doiMatchLen (c :: rest) with
    | some n => some ((c :: rest).take n)
    | none => doiSearchChars rest

/-- Leftmost `DOI_PATTERN` match inside a string (`re.search(...).group(0)`). -/
def doiSearch (s : String) : Option String := (doiSearchChars s.data).map List.asString

/-- Python `pd.Series.str.match` / anchored `re.match` with `DOI_PATTERN`. -/
def doiMatchAtStart (s : String) : Bool := (doiMatchLen s.data).isSome

/-- Modelled from the spec: the canonical DOI syntax `10.NNNN+/suffix` of spec
section 3 — a literal `10.`, then four or more digits, `/`, and a nonempty
suffix of DOI characters.  This is the comparison definition for claim C7; the
code's `DOI_PATTERN` differs by leaving the dot unescaped. -/
def canonicalDoiMatchLen (cs : List Char) : Option Nat :=
  match cs with
  | '1' :: '0' :: '.' :: rest =>
    let d := (rest.takeWhile Char.isDigit).length
    if 4 ≤ d then
      match rest.drop d with
      | '/' :: rest2 =>
        let m := (rest2.takeWhile isDoiSuffixChar).length
        if 1 ≤ m then some (3 + d + 1 + m) else none
      | _ => none
    else none
  | _ => none

/-- Modelled from the spec: leftmost canonical DOI substring, if any. -/
def canonicalDoiSearchChars : List Char → Option (List Char)
  | [] => none
  | c :: rest =>
    match canonicalDoiMatchLen (c :: rest) with
    | some n => some ((c :: rest).take n)
    | none => canonicalDoiSearchChars rest

/-- Modelled from the spec: leftmost canonical DOI substring of a string. -/
def canonicalDoiSearch (s : String) : Option String :=
  (canonicalDoiSearchChars s.data).map List.asString

/-- A raw-record field that the Python code accepts as either a single string
or a list of strings (author and URL fields). -/
inductive StrOrList where
  | absent : StrOrList
  | str (s : String) : StrOrList
  | list (l : List String) : StrOrList
deriving DecidableEq

/-- A raw source record: the dict handed to `PaperDataExtractor.extract_metadata`,
restricted to the candidate keys the extractor consults.  `none` / `.absent`
means the key is missing, so a `dict.get` falls through to its default. -/
structure RawRecord where
  TI : Option String := none
  title : Option String := none
  DOI : Option String := none
  doi : Option String := none
  AU : StrOrList := .absent
  authors : StrOrList := .absent
  FAU : StrOrList := .absent
  DP : Option String := none
  PDAT : Option String := none
  publication_date : Option String := none
  year : Option String := none
  AB : Option String := none
  abstract : Option String := none
  methods : Option String := none
  PT : Option String := none
  publication_type : Option String := none
  LID : StrOrList := .absent
  OUR : StrOrList := .absent
  full_text_url : StrOrList := .absent
deriving DecidableEq

/-- The normalized record, `PaperMetadata` of paper_data.py. -/
structure PaperMetadata where
  title : String
  authors : List String
  doi : Option String
  year : Option Int
  sample_size : Option Int
  study_type : Option String
  full_text_links : List String
deriving DecidableEq

/-- The failure of `extract_metadata`: the `ValueError` the code raises, which
the spec's error taxonomy names `ExtractionError`. -/
structure ExtractionError where
  msg : String
deriving DecidableEq

/-- Title resolution `paper_data.get('TI', paper_data.get('title', ''))`. -/
def resolveTitle (r : RawRecord) : String := r.TI.getD (r.title.getD "")

/-- `PaperDataExtractor._validate_title`: reject a falsy title or one whose
stripped length is below 3, else return the stripped title. -/
def validateTitle (t : String) : Except ExtractionError String :=
  if t = "" ∨ (pyStrip t).length < 3 then .error ⟨"Invalid or missing title"⟩
  else .ok (pyStrip t)

/-- Author source resolution `data.get('AU', data.get('authors', data.get('FAU', [])))`. -/
def resolveAuthorsField (r : RawRecord) : StrOrList :=
  match r.AU with
  | .absent =>
    match r.authors with
    | .absent => match r.FAU with | .absent => .list [] | v => v
    | v => v
  | v => v

/-- `PaperDataExtractor._extract_authors`: a string value is split on commas
with each piece stripped; each entry is then stripped again and kept when its
length exceeds 1. -/
def extractAuthors (r : RawRecord) : List String :=
  let raw : List String :=
    match resolveAuthorsField r with
    | .str s => (s.splitOn ",").map pyStrip
    | .list l => l
    | .absent => []
  raw.filterMap (fun a =>
    let a' := pyStrip a
    if 1 < a'.length then some a' else none)

/-- `PaperDataExtractor._extract_doi`: resolve `DOI` then `doi`, and on a
truthy (nonempty) value return the leftmost `DOI_PATTERN` match, if any. -/
def extractDoi (r : RawRecord) : Option String :=
  let d := r.DOI.getD (r.doi.getD "")
  if d = "" then none else doiSearch d

/-- Gregorian leap-year rule used by `datetime`. -/
def isLeapYear (y : Int) : Bool := y % 4 = 0 && (y % 100 ≠ 0 || y % 400 = 0)

/-- Day count of a month, as validated by the `datetime` constructor. -/
def daysInMonth (y : Int) (m : Nat) : Nat :=
  if m = 2 then (if isLeapYear y then 29 else 28)
  else if m = 4 ∨ m = 6 ∨ m = 9 ∨ m = 11 then 30
  else 31

/-- strptime `%Y` on a token: exactly four digits, and `datetime` requires the
year to be at least 1. -/
def parseYearOnly (t : List Char) : Option Int :=
  if t.length = 4 ∧ t.all Char.isDigit ∧ 1 ≤ digitsToNat t then
    some (digitsToNat t)
  else none

/-- strptime month field `%m`: one or two digits with value 1..12 (the 2-digit
form excludes `00`), per the `_strptime` regex `1[0-2]|0[1-9]|[1-9]`. -/
def validMonthDigits (cs : List Char) : Bool :=
  cs.all Char.isDigit &&
    ((cs.length = 1 || cs.length = 2) && 1 ≤ digitsToNat cs && digitsToNat cs ≤ 12)

/-- strptime day field `%d`: one or two digits with value 1..31, per the
`_strptime` regex `3[01]|[12]\d|0[1-9]|[1-9]`. -/
def validDayDigits (cs : List Char) : Bool :=
  cs.all Char.isDigit &&
    ((cs.length = 1 || cs.length = 2) && 1 ≤ digitsToNat cs && digitsToNat cs ≤ 31)

/-- strptime `%Y<sep>%m<sep>%d` on a whole token, followed by the `datetime`
range validation (year at least 1, day within the month). -/
def parseYMD (sep : Char) (t : List Char) : Option Int :=
  let ypart := t.take 4
  if ypart.length = 4 ∧ ypart.all Char.isDigit ∧ t.drop 4 ≠ [] ∧ t.get? 4 = some sep then
    let rest := t.drop 5
    let mpart := rest.takeWhile (fun c => c ≠ sep)
    let dpart := rest.drop (mpart.length + 1)
    if rest.get? mpart.length = some sep ∧ validMonthDigits mpart ∧ validDayDigits dpart ∧
        1 ≤ digitsToNat ypart ∧
        digitsToNat dpart ≤ daysInMonth (digitsToNat ypart) (digitsToNat mpart) then
      some (digitsToNat ypart)
    else none
  else none

/-- One token against the format list `['%Y', '%Y/%m/%d', '%Y-%m-%d', '%Y %b %d']`.
The last format contains a literal space, and a `split()` token never does, so
it can never succeed and is omitted. -/
def parseYearToken (t : List Char) : Option Int :=
  match parseYearOnly t with
  | some y => some y
  | none =>
    match parseYMD '/' t with
    | some y => some y
    | none => parseYMD '-' t

/-- The field loop of `PaperDataExtractor._extract_year`.  A truthy field whose
`split()` is empty makes `date_str.split()[0]` raise IndexError, which the
enclosing `except` turns into an overall `None`. -/
def yearFromFields : List (Option String) → Option Int
  | [] => none
  | f :: rest =>
    match f with
    | none => yearFromFields rest
    | some s =>
      if s = "" then yearFromFields rest
      else
        match pyWords s.data with
        | [] => none
        | t :: _ =>
          match parseYearToken t with
          | some y => some y
          | none => yearFromFields rest

/-- `PaperDataExtractor._extract_year` over `['DP', 'PDAT', 'publication_date', 'year']`. -/
def extractYear (r : RawRecord) : Option Int :=
  yearFromFields [r.DP, r.PDAT, r.publication_date, r.year]

/-- Python `' '.join(...)` over the given strings. -/
def spaceJoin (l : List String) : String := String.intercalate " " l

/-- Lower-cased character list of a string, Python `str.lower()` (ASCII). -/
def lowerChars (s : String) : List Char := s.data.map Char.toLower

/-- Regex `n\s*=\s*(\d+)` attempted at the head of the text; the captured
number.  `\s*` is greedy but followed by `=` (not whitespace) and `(\d+)` is
greedy with nothing after it, so the match is forced without backtracking. -/
def sampleP1At (cs : List Char) : Option Nat :=
  match cs with
  | 'n' :: rest =>
    match rest.dropWhile isPyWs with
    | '=' :: rest2 =>
      let digits := (rest2.dropWhile isPyWs).takeWhile Char.isDigit
      if digits ≠ [] then some (digitsToNat digits) else none
    | _ => none
  | _ => none

/-- Regex `sample size (?:of|was|=)\s*(\d+)` attempted at the head: the three
alternatives start with distinct characters, so at most one applies. -/
def sampleP2At (cs : List Char) : Option Nat :=
  if leadMatch "sample size ".data cs then
    let rest := cs.drop "sample size ".data.length
    let afterAlt : Option (List Char) :=
      if leadMatch "of".data rest then some (rest.drop 2)
      else if leadMatch "was".data rest then some (rest.drop 3)
      else if leadMatch "=".data rest then some (rest.drop 1)
      else none
    match afterAlt with
    | none => none
    | some rest2 =>
      let digits := (rest2.dropWhile isPyWs).takeWhile Char.isDigit
      if digits ≠ [] then some (digitsToNat digits) else none
  else none

/-- Regex `<head>\s*(\d+)\s*<tail>` attempted at the head of the text: the
shape of the `enrolled ... participants` and `included ... patients` patterns.
Whitespace, digits and the tail's first letter are pairwise disjoint, so the
greedy runs are forced. -/
def sampleWrapAt (head tail : List Char) (cs : List Char) : Option Nat :=
  if leadMatch head cs then
    let rest := (cs.drop head.length).dropWhile isPyWs
    let digits := rest.takeWhile Char.isDigit
    if digits ≠ [] ∧ leadMatch tail ((rest.drop digits.length).dropWhile isPyWs) then
      some (digitsToNat digits)
    else none
  else none

/-- Python `re.search`: first position (leftmost) where the pattern matches. -/
def scanFirst (f : List Char → Option Nat) : List Char → Option Nat
  | [] => none
  | c :: rest =>
    match f (c :: rest) with
    | some n => some n
    | none => scanFirst f rest

/-- `PaperDataExtractor._extract_sample_size`: the four patterns are tried in
order over the lower-cased join of the `AB`, `abstract` and `methods` fields;
the first pattern with a match anywhere wins. -/
def extractSampleSize (r : RawRecord) : Option Int :=
  let text := lowerChars (spaceJoin [r.AB.getD "", r.abstract.getD "", r.methods.getD ""])
  match scanFirst sampleP1At text with
  | some n => some (n : Int)
  | none =>
    match scanFirst sampleP2At text with
    | some n => some (n : Int)
    | none =>
      match scanFirst (sampleWrapAt "enrolled".data "participants".data) text with
      | some n => some (n : Int)
      | none =>
        match scanFirst (sampleWrapAt "included".data "patients".data) text with
        | some n => some (n : Int)
        | none => none

/-- `PaperDataExtractor.STUDY_TYPES` in dict insertion order. -/
def studyTypesList : List (String × List String) :=
  [("RCT", ["randomized", "randomised", "rct"]),
   ("Cohort", ["cohort", "longitudinal"]),
   ("Case-Control", ["case-control", "case control"]),
   ("Meta-Analysis", ["meta-analysis", "meta analysis"]),
   ("Systematic Review", ["systematic review"]),
   ("Observational", ["observational", "cross-sectional"])]

/-- Python `any(keyword in text for keyword in keywords)`. -/
def kwHit (text : List Char) (kws : List String) : Bool :=
  kws.any (fun k => isSubstr k.data text)

/-- The combined lower-cased text `_detect_study_type` scans: the join of the
`TI`, `AB`, `PT` and `publication_type` fields. -/
def studyText (r : RawRecord) : List Char :=
  lowerChars (spaceJoin [r.TI.getD "", r.AB.getD "", r.PT.getD "", r.publication_type.getD ""])

/-- `PaperDataExtractor._detect_study_type`: first category in dict order with
a keyword occurring as a substring of the combined text. -/
def detectStudyType (r : RawRecord) : Option String :=
  (studyTypesList.find? (fun p => kwHit (studyText r) p.2)).map Prod.fst

/-- Python `url.startswith(('http://', 'https://'))`. -/
def urlIsHttp (u : String) : Bool :=
  leadMatch "http://".data u.data || leadMatch "https://".data u.data

/-- The values of one URL-bearing field: a string becomes a one-element list. -/
def urlFieldValues : StrOrList → List String
  | .absent => []
  | .str s => [s]
  | .list l => l

/-- The http(s) URLs collected from the `LID`, `OUR` and `full_text_url`
fields, in field and list order. -/
def collectedUrls (r : RawRecord) : List String :=
  ((urlFieldValues r.LID ++ urlFieldValues r.OUR ++ urlFieldValues r.full_text_url).filter urlIsHttp)

/-- `PaperDataExtractor._extract_full_text_links`: collected URLs, a synthesized
`https://doi.org/` link when a DOI resolves, then `list(set(links))`.  Python's
set iteration order is unspecified, so the result is modelled by `List.dedup`;
only order-insensitive properties are proved about it. -/
def extractFullTextLinks (r : RawRecord) : List String :=
  (collectedUrls r ++
    (match extractDoi r with
     | some d => ["https://doi.org/" ++ d]
     | none => [])).dedup

/-- `PaperDataExtractor.extract_metadata`: validate the title (re-raising its
failure wrapped in the catch-all message) and assemble the metadata record from
the total sub-extractors. -/
def extractMetadata (r : RawRecord) : Except ExtractionError PaperMetadata :=
  match validateTitle (resolveTitle r) with
  | .error e => .error ⟨"Failed to extract paper metadata: " ++ e.msg⟩
  | .ok t =>
    .ok { title := t
          authors := extractAuthors r
          doi := extractDoi r
          year := extractYear r
          sample_size := extractSampleSize r
          study_type := detectStudyType r
          full_text_links := extractFullTextLinks r }

/-- One entry of `SystematicReview.results`: a normalized record tagged with
its source name. -/
structure TaggedResult where
  source : String
  data : PaperMetadata
deriving DecidableEq

/-- One source loop of `SystematicReview.search_databases`: append each
successfully normalized record to the accumulated results; on the
extraction error (`except ValueError`), log and skip the record. -/
def processRecords (acc : List TaggedResult) (src : String) : List RawRecord → List TaggedResult
  | [] => acc
  | r :: rest =>
    match extractMetadata r with
    | .ok m => processRecords (acc ++ [⟨src, m⟩]) src rest
    | .error _ => processRecords acc src rest

/-- `SystematicReview.search_databases`, with the external reader collaborators
abstracted to the raw-record lists they return (PubMed details per PMID,
Cochrane results, ClinicalTrials results) and `self.results` as `acc`. -/
def searchDatabases (acc : List TaggedResult)
    (pubmedArticles cochraneArticles ctArticles : List RawRecord)
    (includeCochrane includeClinicaltrials : Bool) : List TaggedResult :=
  let r1 := processRecords acc "pubmed" pubmedArticles
  let r2 := if includeCochrane then processRecords r1 "cochrane" cochraneArticles else r1
  if includeClinicaltrials then processRecords r2 "clinicaltrials" ctArticles else r2

/-- The successfully normalized records of one source, tagged, in order. -/
def sourceSuccesses (src : String) (records : List RawRecord) : List TaggedResult :=
  records.filterMap (fun r =>
    match extractMetadata r with
    | .ok m => some ⟨src, m⟩
    | .error _ => none)

/-- A value of one dict key as seen by pandas: `none` = key absent (NaN in the
frame), `some none` = key present with value `None` (also NaN), `some (some a)`
= an actual value. -/
abbrev PdField (α : Type) := Option (Option α)

/-- `pd.Series.notna` on one cell. -/
def notna {α : Type} : PdField α → Bool
  | some (some _) => true
  | _ => false

/-- Whether the key appears in the record dict at all. -/
def hasKey {α : Type} : PdField α → Bool
  | some _ => true
  | none => false

/-- A record of the canonical collection as fed to the two quality scorers
(`metadata.__dict__` flattened by `pd.DataFrame`), restricted to the fields the
scorers consult. -/
structure CRec where
  title : PdField String := none
  authors : PdField (List String) := none
  year : PdField Int := none
  doi : PdField String := none
  sample_size : PdField Int := none
  study_type : PdField String := none
deriving DecidableEq

/-- `field in df.columns`: a DataFrame built from a list of dicts has a column
exactly when some record carries the key. -/
def colPresent (data : List CRec) (f : CRec → Bool) : Bool := data.any f

/-- The pandas dtypes relevant to the consistency checks.  `int64Nullable` and
`float64Nullable` are the extension dtypes `pd.Int64Dtype()` and
`pd.Float64Dtype()`; they compare unequal to the numpy dtypes `int64`,
`float64` and `object` that `pd.DataFrame(list_of_dicts)` actually infers. -/
inductive PdDtype where
  | int64 : PdDtype
  | float64 : PdDtype
  | object : PdDtype
  | int64Nullable : PdDtype
  | float64Nullable : PdDtype
deriving DecidableEq

/-- Dtype inference for an integer-valued column built from a list of dicts:
all values present gives numpy `int64`; a mix of values and NaN gives
`float64`; an all-NaN object column stays `object`.  The nullable extension
dtypes are never inferred. -/
def inferNumDtype (col : List (Option Int)) : PdDtype :=
  if col.all Option.isSome then .int64
  else if col.any Option.isSome then .float64
  else .object

/-- The `year` column of the frame, one cell per record. -/
def yearCol (data : List CRec) : List (Option Int) :=
  data.map (fun r => match r.year with | some (some y) => some y | _ => none)

/-- `QualityChecker._check_year_format`: with no `year` column the check
passes; otherwise the column dtype is compared against
`[pd.Int64Dtype(), pd.Float64Dtype()]`. -/
def qcCheckYearFormat (data : List CRec) : Bool :=
  if colPresent data (fun r => hasKey r.year) then
    let d := inferNumDtype (yearCol data)
    d = PdDtype.int64Nullable ∨ d = PdDtype.float64Nullable
  else true

/-- `_check_author_format` (identical in quality_checker.py and validator.py):
every cell of a present `authors` column must be a list — a NaN or `None` cell
fails `isinstance(..., list)`. -/
def authorFormatCheck (data : List CRec) : Bool :=
  if colPresent data (fun r => hasKey r.authors) then
    data.all (fun r => match r.authors with | some (some _) => true | _ => false)
  else true

/-- `_check_doi_format` (identical in both scorers): every present DOI string
must match `DOI_PATTERN` anchored at the start (`Series.str.match`); NaN cells
count as passing (`na=True`). -/
def doiFormatCheck (data : List CRec) : Bool :=
  if colPresent data (fun r => hasKey r.doi) then
    data.all (fun r => match r.doi with | some (some s) => doiMatchAtStart s | _ => true)
  else true

/-- One per-field completeness entry of `QualityChecker._check_completeness`:
`notna().mean() * 100` for a present column, 0 for a missing one. -/
def qcFieldScore (data : List CRec) (hasK nn : CRec → Bool) : ℚ :=
  if colPresent data hasK then
    ((data.countP nn : ℚ) / (data.length : ℚ)) * 100
  else 0

/-- The `field_scores` dict of `QualityChecker._check_completeness` over the
default required fields, in order. -/
def qcFieldScores (data : List CRec) : List (String × ℚ) :=
  [("title", qcFieldScore data (fun r => hasKey r.title) (fun r => notna r.title)),
   ("authors", qcFieldScore data (fun r => hasKey r.authors) (fun r => notna r.authors)),
   ("year", qcFieldScore data (fun r => hasKey r.year) (fun r => notna r.year)),
   ("doi", qcFieldScore data (fun r => hasKey r.doi) (fun r => notna r.doi)),
   ("sample_size", qcFieldScore data (fun r => hasKey r.sample_size) (fun r => notna r.sample_size))]

/-- Completeness sub-score: mean of the per-field scores. -/
def qcCompletenessScore (data : List CRec) : ℚ :=
  ((qcFieldScores data).map Prod.snd).sum / ((qcFieldScores data).length : ℚ)

/-- The `checks` dict of `QualityChecker._check_consistency`, in order. -/
def qcChecks (data : List CRec) : List (String × Bool) :=
  [("year_format", qcCheckYearFormat data),
   ("author_format", authorFormatCheck data),
   ("doi_format", doiFormatCheck data)]

/-- Consistency sub-score: passing checks over total checks, times 100. -/
def qcConsistencyScore (data : List CRec) : ℚ :=
  ((qcChecks data).countP Prod.snd : ℚ) / ((qcChecks data).length : ℚ) * 100

/-- Record flag of the `invalid_years` filter in `QualityChecker._check_validity`
(`year < 1800` or `year > current_year`; NaN compares false). -/
def qcYearFlag (currentYear : Int) (r : CRec) : Bool :=
  match r.year with
  | some (some y) => y < 1800 || currentYear < y
  | _ => false

/-- Record flag of the `invalid_samples` filter (`sample_size <= 0`). -/
def qcSampleFlag (r : CRec) : Bool :=
  match r.sample_size with
  | some (some n) => n ≤ 0
  | _ => false

/-- The validity `issues` message list built by `QualityChecker._check_validity`:
at most one message per category, appended only when the column exists and the
filtered frame is nonempty. -/
def qcValidityIssues (data : List CRec) (currentYear : Int) : List String :=
  (if colPresent data (fun r => hasKey r.year) then
    (if 0 < data.countP (qcYearFlag currentYear) then
      ["Found " ++ toString (data.countP (qcYearFlag currentYear)) ++ " invalid publication years"]
    else [])
  else []) ++
  (if colPresent data (fun r => hasKey r.sample_size) then
    (if 0 < data.countP qcSampleFlag then
      ["Found " ++ toString (data.countP qcSampleFlag) ++ " invalid sample sizes"]
    else [])
  else [])

/-- Validity sub-score of `QualityChecker`: `max(0, 100 - len(issues) * 10)`. -/
def qcValidityScore (data : List CRec) (currentYear : Int) : ℚ :=
  max 0 (100 - ((qcValidityIssues data currentYear).length : ℚ) * 10)

/-- The `QualityMetrics` dataclass.  The Python issue strings interpolate
scores with `:.1f` formatting; the numeric issue content is carried by the
sub-score fields and the validity message list, which is all the claims use. -/
structure QualityMetrics where
  completeness_score : ℚ
  consistency_score : ℚ
  validity_score : ℚ
  overall_score : ℚ
  validity_issues : List String
deriving DecidableEq

/-- `QualityChecker.check_quality`: the three sub-scores and the weighted
overall score `0.4 * completeness + 0.3 * consistency + 0.3 * validity`
(Python float weights modelled as exact rationals). -/
def checkQuality (data : List CRec) (currentYear : Int) : QualityMetrics :=
  { completeness_score := qcCompletenessScore data
    consistency_score := qcConsistencyScore data
    validity_score := qcValidityScore data currentYear
    overall_score :=
      qcCompletenessScore data * (4 / 10) + qcConsistencyScore data * (3 / 10) +
        qcValidityScore data currentYear * (3 / 10)
    validity_issues := qcValidityIssues data currentYear }

/-- The Python runtime errors the validator code can raise: the `NameError`
from the undefined `np` in `_check_year_consistency` and the
`ZeroDivisionError` of the score ratios. -/
inductive PyError where
  | nameError : PyError
  | zeroDivisionError : PyError
deriving DecidableEq

/-- `DataValidator._check_year_consistency`: with no `year` column it returns
`True`; otherwise the line `self.df['year'].dtype in [np.int64, np.float64]`
evaluates `np`, which validator.py never imports, raising `NameError`. -/
def dvCheckYearConsistency (data : List CRec) : Except PyError Bool :=
  if colPresent data (fun r => hasKey r.year) then .error .nameError
  else .ok true

/-- The `checks` dict of `DataValidator._check_consistency`, in order; the
`valid_years` entry is computed first and propagates its `NameError`. -/
def dvConsistencyChecks (data : List CRec) : Except PyError (List (String × Bool)) :=
  match dvCheckYearConsistency data with
  | .error e => .error e
  | .ok y =>
    .ok [("valid_years", y),
         ("author_format", authorFormatCheck data),
         ("doi_format", doiFormatCheck data)]

/-- The required-field thresholds of `DataValidator._check_completeness`. -/
def dvThresholds : List (String × ℚ) :=
  [("title", 100), ("authors", 100), ("year", 90), ("study_type", 80), ("sample_size", 70)]

/-- `notna().mean() * 100` for one column. -/
def dvNotnaPct (data : List CRec) (nn : CRec → Bool) : ℚ :=
  ((data.countP nn : ℚ) / (data.length : ℚ)) * 100

/-- `DataValidator._check_completeness`: per-field percentages, for present
columns only, in threshold-dict order. -/
def dvCompleteness (data : List CRec) : List (String × ℚ) :=
  (if colPresent data (fun r => hasKey r.title) then
    [("title", dvNotnaPct data (fun r => notna r.title))] else []) ++
  (if colPresent data (fun r => hasKey r.authors) then
    [("authors", dvNotnaPct data (fun r => notna r.authors))] else []) ++
  (if colPresent data (fun r => hasKey r.year) then
    [("year", dvNotnaPct data (fun r => notna r.year))] else []) ++
  (if colPresent data (fun r => hasKey r.study_type) then
    [("study_type", dvNotnaPct data (fun r => notna r.study_type))] else []) ++
  (if colPresent data (fun r => hasKey r.sample_size) then
    [("sample_size", dvNotnaPct data (fun r => notna r.sample_size))] else [])

/-- Count of completeness warnings one `_check_completeness` call appends to
`self.validation_results` (fields scoring below their threshold). -/
def dvCompletenessBelow (data : List CRec) : Nat :=
  ((dvCompleteness data).filter (fun p =>
    match (dvThresholds.find? (fun q => q.1 = p.1)).map Prod.snd with
    | some t => p.2 < t
    | none => false)).length

/-- `DataValidator._completeness_score`: mean of the present-column
percentages; with no present required column, `len(completeness)` is 0 and the
division raises `ZeroDivisionError`. -/
def dvCompletenessScore (data : List CRec) : Except PyError ℚ :=
  if (dvCompleteness data).length = 0 then .error .zeroDivisionError
  else .ok (((dvCompleteness data).map Prod.snd).sum / ((dvCompleteness data).length : ℚ))

/-- `DataValidator._consistency_score`: passing checks over total checks. -/
def dvConsistencyScore (data : List CRec) : Except PyError ℚ :=
  match dvConsistencyChecks data with
  | .error e => .error e
  | .ok checks => .ok ((checks.countP Prod.snd : ℚ) / (checks.length : ℚ) * 100)

/-- Record flag of the validator's `invalid_years` filter: bounds 1900 and the
current calendar year. -/
def dvYearFlag (currentYear : Int) (r : CRec) : Bool :=
  match r.year with
  | some (some y) => y < 1900 || currentYear < y
  | _ => false

/-- Record flag of the validator's `invalid_samples` filter. -/
def dvSampleFlag (r : CRec) : Bool :=
  match r.sample_size with
  | some (some n) => n ≤ 0
  | _ => false

/-- `DataValidator._check_validity`: per-check lists of flagged row indices,
for present columns only. -/
def dvValidity (data : List CRec) (currentYear : Int) : List (String × List Nat) :=
  (if colPresent data (fun r => hasKey r.year) then
    [("year", ((data.enum.filter (fun p => dvYearFlag currentYear p.2)).map Prod.fst))]
  else []) ++
  (if colPresent data (fun r => hasKey r.sample_size) then
    [("sample_size", ((data.enum.filter (fun p => dvSampleFlag p.2)).map Prod.fst))]
  else [])

/-- `DataValidator._validity_score`: `max(0, 100 - total_issues / len(df) * 100)`,
raising `ZeroDivisionError` on an empty frame. -/
def dvValidityScore (data : List CRec) (currentYear : Int) : Except PyError ℚ :=
  if data.length = 0 then .error .zeroDivisionError
  else
    .ok (max 0 (100 -
      (((((dvValidity data currentYear).map (fun p => p.2.length)).sum : ℕ)) : ℚ) /
        (data.length : ℚ) * 100))

/-- `DataValidator._calculate_quality_score`: the three sub-scores in dict
order (the first raised error propagates), combined with weights 0.4/0.3/0.3. -/
def dvQualityScore (data : List CRec) (currentYear : Int) : Except PyError ℚ :=
  match dvCompletenessScore data with
  | .error e => .error e
  | .ok c =>
    match dvConsistencyScore data with
    | .error e => .error e
    | .ok k =>
      match dvValidityScore data currentYear with
      | .error e => .error e
      | .ok v => .ok (c * (4 / 10) + k * (3 / 10) + v * (3 / 10))

/-- The dict `validate_all` returns when no check raises. -/
structure DVResults where
  completeness : List (String × ℚ)
  consistency : List (String × Bool)
  validity : List (String × List Nat)
  quality_score : ℚ
  total_issues : Nat
deriving DecidableEq

/-- `DataValidator.validate_all`: build the result dict; any exception inside
(the `NameError` of the year-consistency check or a `ZeroDivisionError` in the
summary's quality score) is caught, logged, and turned into an empty dict,
modelled as `none`.  `total_issues` counts the completeness warnings, which by
the time the summary is built have been appended by two `_check_completeness`
calls (one from `validate_all` itself, one from `_completeness_score`). -/
def validateAll (data : List CRec) (currentYear : Int) : Option DVResults :=
  match dvConsistencyChecks data, dvQualityScore data currentYear with
  | .ok checks, .ok q =>
    some { completeness := dvCompleteness data
           consistency := checks
           validity := dvValidity data currentYear
           quality_score := q
           total_issues := 2 * dvCompletenessBelow data }
  | _, _ => none

deriving instance DecidableEq for Except

/-- Modelled from the spec: a record is flagged for validity when its year
falls outside the window from the lower bound to the current calendar year or
its sample size is nonpositive (claim C5's record-level flag). -/
def specFlagged (lowerBound currentYear : Int) (r : CRec) : Bool :=
  (match r.year with
   | some (some y) => y < lowerBound || currentYear < y
   | _ => false) ||
  (match r.sample_size with
   | some (some n) => n ≤ 0
   | _ => false)

/-- Modelled from the spec: the claimed validity sub-score formula
`max(0, 100 - flagged / total * 100)` over record-level flags. -/
def specValidityScore (lowerBound : Int) (data : List CRec) (currentYear : Int) : ℚ :=
  max 0 (100 - (data.countP (specFlagged lowerBound currentYear) : ℚ) / (data.length : ℚ) * 100)

/-- Raw record with a usable title surrounded by whitespace. -/
def recValidTitle : RawRecord := { TI := some "  Valid Title " }

/-- Raw record whose `TI` strips to fewer than 3 characters; the generic
`title` fallback key is not consulted because `TI` is present. -/
def recShortTitle : RawRecord := { TI := some " ab ", title := some "A Perfectly Good Title" }

/-- Raw record with a usable title and unresolvable optional fields. -/
def recSoftMissing : RawRecord :=
  { TI := some "Tiny Study Again", DOI := some "not-a-doi", DP := some "invalid",
    AB := some "no numbers here", LID := .str "ftp://example.org/x" }

/-- Raw record with a resolvable DOI and one collected URL. -/
def recDoiLinks : RawRecord :=
  { DOI := some "10.1234/example.12345", LID := .str "https://example.com/paper" }

/-- Raw record with no DOI and a duplicated collected URL. -/
def recNoDoiLinks : RawRecord :=
  { LID := .str "https://a.example/p", full_text_url := .list ["https://a.example/p", "https://b.example/q"] }

/-- Raw record whose title keyword-resolves to RCT. -/
def recRandomized : RawRecord := { TI := some "A Randomized Controlled Trial" }

/-- Raw record whose title keyword-resolves to Meta-Analysis. -/
def recMeta : RawRecord := { TI := some "A Meta-Analysis" }

/-- Raw record whose title contains no study-type keyword. -/
def recPlain : RawRecord := { TI := some "A Study" }

/-- A fully populated, fully valid canonical record (claim C4). -/
def recFullValid : CRec :=
  { title := some (some "Effects of X on Y"), authors := some (some ["Smith J", "Doe A"]),
    year := some (some 2020), doi := some (some "10.1234/abc"),
    sample_size := some (some 120), study_type := some (some "RCT") }

/-- A canonical record flagged only for its out-of-range year (claim C5). -/
def recYear1700 : CRec :=
  { title := some (some "T"), year := some (some 1700), sample_size := some (some 10) }

/-- A canonical record that carries a `year` key (claim C10). -/
def recWithYear : CRec := { year := some (some 2020) }

/-- Helper: a title whose stripped length reaches 3 passes `_validate_title`. -/
theorem validateTitle_of_le (t : String) (h : 3 ≤ (pyStrip t).length) :
    validateTitle t = .ok (pyStrip t) := by
  unfold validateTitle
  rw [if_neg]
  rintro (h1 | h2)
  · subst h1
    exact absurd h (by decide)
  · omega

/-- Helper: a title whose stripped length is below 3 fails `_validate_title`. -/
theorem validateTitle_of_lt (t : String) (h : (pyStrip t).length < 3) :
    validateTitle t = .error ⟨"Invalid or missing title"⟩ := by
  unfold validateTitle
  rw [if_pos (Or.inr h)]

/-- C1.  For every raw record with a resolvable title whose trimmed length is
at least 3, `extract_metadata` returns a metadata record whose title is the
trimmed input title; for every raw record whose resolved title strips to fewer
than 3 characters, `extract_metadata` fails with the extraction error. -/
theorem extract_metadata_title_contract (r : RawRecord) :
    (3 ≤ (pyStrip (resolveTitle r)).length →
      ∃ m, extractMetadata r = .ok m ∧ m.title = pyStrip (resolveTitle r)) ∧
    ((pyStrip (resolveTitle r)).length < 3 →
      ∃ e, extractMetadata r = .error e) := by
  constructor
  · intro h
    refine ⟨{ title := pyStrip (resolveTitle r), authors := extractAuthors r,
              doi := extractDoi r, year := extractYear r,
              sample_size := extractSampleSize r, study_type := detectStudyType r,
              full_text_links := extractFullTextLinks r }, ?_, rfl⟩
    simp [extractMetadata, validateTitle_of_le _ h]
  · intro h
    refine ⟨⟨"Failed to extract paper metadata: Invalid or missing title"⟩, ?_⟩
    simp [extractMetadata, validateTitle_of_lt _ h]

/-- Witness for C1: a concrete record with a whitespace-padded valid title
succeeds with the trimmed title, and a concrete record whose `TI` strips to 2
characters fails even though its `title` key holds a long string. -/
theorem extract_metadata_title_contract_witness :
    (∃ m, extractMetadata recValidTitle = .ok m ∧
      m.title = pyStrip (resolveTitle recValidTitle)) ∧
    (∃ e, extractMetadata recShortTitle = .error e) :=
  ⟨(extract_metadata_title_contract recValidTitle).1 (by decide),
   (extract_metadata_title_contract recShortTitle).2 (by decide)⟩

/-- C2.  For every raw record with a usable title, `extract_metadata` succeeds
and every optional field equals the value of its total sub-extractor, which
yields `none` (or an empty list) when the field cannot be resolved; no
sub-extraction failure escapes `extract_metadata`. -/
theorem extract_metadata_soft_missing (r : RawRecord)
    (h : 3 ≤ (pyStrip (resolveTitle r)).length) :
    extractMetadata r =
      .ok { title := pyStrip (resolveTitle r)
            authors := extractAuthors r
            doi := extractDoi r
            year := extractYear r
            sample_size := extractSampleSize r
            study_type := detectStudyType r
            full_text_links := extractFullTextLinks r } := by
  simp [extractMetadata, validateTitle_of_le _ h]

/-- Witness for C2: a concrete record with a valid title whose DOI, date,
sample-size, study-type and link fields are all present but unresolvable
extracts successfully with every optional field absent. -/
theorem extract_metadata_soft_missing_witness :
    extractMetadata recSoftMissing =
      .ok { title := "Tiny Study Again", authors := [], doi := none, year := none,
            sample_size := none, study_type := none, full_text_links := [] } := by
  have h := extract_metadata_soft_missing recSoftMissing (by decide)
  rw [h]
  decide

/-- Counterexample to C3.  On the empty collection, QualityChecker's
consistency and validity sub-scores and overall score are all nonzero (the
three consistency checks and the validity check pass vacuously), and
DataValidator's quality score raises ZeroDivisionError instead of defining a
zero score, so the claim that both implementations yield all-zero sub-scores
without error is false. -/
theorem empty_scoring_counterexample :
    (checkQuality [] 2026).consistency_score ≠ 0 ∧
    (checkQuality [] 2026).validity_score ≠ 0 ∧
    (checkQuality [] 2026).overall_score ≠ 0 ∧
    dvQualityScore [] 2026 = .error .zeroDivisionError := by
  refine ⟨?_, ?_, ?_, by decide⟩ <;>
    · simp [checkQuality, qcCompletenessScore, qcFieldScores, qcFieldScore, qcConsistencyScore,
        qcChecks, qcCheckYearFormat, authorFormatCheck, doiFormatCheck, qcValidityScore,
        qcValidityIssues, colPresent]
      try norm_num

/-- C3 as amended.  Scoring an empty collection never raises in
`QualityChecker.check_quality` but yields completeness 0, consistency 100,
validity 100 and overall 60 (not all-zero sub-scores); DataValidator's quality
score on an empty collection fails internally with ZeroDivisionError and
`validate_all` returns an empty mapping instead of zero scores. -/
theorem empty_scoring_actual (currentYear : Int) :
    (checkQuality [] currentYear).completeness_score = 0 ∧
    (checkQuality [] currentYear).consistency_score = 100 ∧
    (checkQuality [] currentYear).validity_score = 100 ∧
    (checkQuality [] currentYear).overall_score = 60 ∧
    dvQualityScore [] currentYear = .error .zeroDivisionError ∧
    validateAll [] currentYear = none := by
  refine ⟨?_, ?_, ?_, ?_, ?_, ?_⟩ <;>
    · simp [checkQuality, qcCompletenessScore, qcFieldScores, qcFieldScore, qcConsistencyScore,
        qcChecks, qcCheckYearFormat, authorFormatCheck, doiFormatCheck, qcValidityScore,
        qcValidityIssues, colPresent, dvQualityScore, dvCompletenessScore, dvCompleteness,
        validateAll, dvConsistencyChecks, dvCheckYearConsistency]
      try norm_num

/-- C4 evidence.  On a one-record collection where every field is present and
valid, `check_quality` returns completeness 100 and validity 100 but
consistency 200/3 (the `year_format` check compares the column's inferred
numpy int64 dtype against the pandas nullable dtypes and fails), so the overall
score is 90, not the claimed 100. -/
theorem full_valid_scoring_eval :
    (checkQuality [recFullValid] 2026).completeness_score = 100 ∧
    (checkQuality [recFullValid] 2026).consistency_score = 200 / 3 ∧
    (checkQuality [recFullValid] 2026).validity_score = 100 ∧
    (checkQuality [recFullValid] 2026).overall_score = 90 ∧
    qcCheckYearFormat [recFullValid] = false ∧
    (90 : ℚ) ≠ 100 := by
  have hdoi : doiMatchAtStart "10.1234/abc" = true := by decide
  refine ⟨?_, ?_, ?_, ?_, by decide, by norm_num⟩ <;>
    · simp [checkQuality, qcCompletenessScore, qcFieldScores, qcFieldScore, qcConsistencyScore,
        qcChecks, qcCheckYearFormat, authorFormatCheck, doiFormatCheck, qcValidityScore,
        qcValidityIssues, colPresent, recFullValid, inferNumDtype, yearCol, notna, hasKey,
        qcYearFlag, qcSampleFlag, hdoi]
      try norm_num

/-- Helper: a positive flag count forces the flagged column to be present. -/
theorem countP_pos_col {data : List CRec} {p hk : CRec → Bool}
    (himp : ∀ r, p r = true → hk r = true) (h : 0 < data.countP p) :
    colPresent data hk = true := by
  obtain ⟨r, hr, hf⟩ := List.countP_pos_iff.mp h
  exact List.any_eq_true.mpr ⟨r, hr, himp r hf⟩

/-- Helper: with the flagged column absent, no record is flagged. -/
theorem countP_zero_col {data : List CRec} {p hk : CRec → Bool}
    (himp : ∀ r, p r = true → hk r = true) (h : colPresent data hk = false) :
    data.countP p = 0 := by
  rw [List.countP_eq_zero]
  intro r hr hp
  have hall := List.any_eq_false.mp h
  exact hall r hr (himp r hp)

/-- Helper: a year flag (QualityChecker bounds) implies the `year` key. -/
theorem qcYearFlag_hasKey (cy : Int) (r : CRec) (h : qcYearFlag cy r = true) :
    hasKey r.year = true := by
  cases hy : r.year with
  | none => rw [qcYearFlag, hy] at h; simp at h
  | some o => simp [hasKey, hy]

/-- Helper: a year flag (DataValidator bounds) implies the `year` key. -/
theorem dvYearFlag_hasKey (cy : Int) (r : CRec) (h : dvYearFlag cy r = true) :
    hasKey r.year = true := by
  cases hy : r.year with
  | none => rw [dvYearFlag, hy] at h; simp at h
  | some o => simp [hasKey, hy]

/-- Helper: a sample-size flag implies the `sample_size` key (the flag
predicate is shared verbatim by the two scorers). -/
theorem sampleFlag_hasKey (r : CRec) (h : qcSampleFlag r = true) :
    hasKey r.sample_size = true := by
  cases hy : r.sample_size with
  | none => rw [qcSampleFlag, hy] at h; simp at h
  | some o => simp [hasKey, hy]

/-- Helper: the two sample-size flags are the same predicate. -/
theorem dvSampleFlag_eq_qc : dvSampleFlag = qcSampleFlag := rfl

/-- Helper: QualityChecker's validity issue list has one entry per flagged
category. -/
theorem qcValidityIssues_length (data : List CRec) (cy : Int) :
    (qcValidityIssues data cy).length =
      (if 0 < data.countP (qcYearFlag cy) then 1 else 0) +
        (if 0 < data.countP qcSampleFlag then 1 else 0) := by
  unfold qcValidityIssues
  rcases Nat.eq_zero_or_pos (data.countP (qcYearFlag cy)) with hy | hy
  · rcases Nat.eq_zero_or_pos (data.countP qcSampleFlag) with hs | hs
    · simp [hy, hs]
    · have hcol := countP_pos_col (sampleFlag_hasKey) hs
      simp [hy, hs, hcol]
  · have hcoly := countP_pos_col (qcYearFlag_hasKey cy) hy
    rcases Nat.eq_zero_or_pos (data.countP qcSampleFlag) with hs | hs
    · simp [hy, hs, hcoly, Nat.pos_iff_ne_zero.mp hy]
    · have hcol := countP_pos_col (sampleFlag_hasKey) hs
      simp [hy, hs, hcol, hcoly, Nat.pos_iff_ne_zero.mp hy, Nat.pos_iff_ne_zero.mp hs]

/-- Helper: the flagged-index list of one validator check has as many entries
as there are flagged records. -/
theorem enumFrom_filter_length {α : Type} (p : α → Bool) :
    ∀ (l : List α) (n : Nat),
      ((List.enumFrom n l).filter (fun q => p q.2)).length = l.countP p := by
  intro l
  induction l with
  | nil => intro n; simp
  | cons a t ih =>
    intro n
    rw [List.enumFrom_cons]
    cases hpa : p a with
    | true => simp [List.filter, hpa, ih, List.countP_cons]
    | false => simp [List.filter, hpa, ih, List.countP_cons]

/-- Helper: the validator's total issue count is the sum of the per-check
flag counts. -/
theorem dvValidity_total (data : List CRec) (cy : Int) :
    ((dvValidity data cy).map (fun p => p.2.length)).sum =
      data.countP (dvYearFlag cy) + data.countP dvSampleFlag := by
  unfold dvValidity
  cases hcy : colPresent data (fun r => hasKey r.year) with
  | false =>
    have h0 : data.countP (dvYearFlag cy) = 0 := countP_zero_col (dvYearFlag_hasKey cy) hcy
    cases hcs : colPresent data (fun r => hasKey r.sample_size) with
    | false =>
      have h1 : data.countP dvSampleFlag = 0 := by
        rw [dvSampleFlag_eq_qc]; exact countP_zero_col (sampleFlag_hasKey) hcs
      simp [hcy, hcs, h0, h1]
    | true => simp [hcy, hcs, h0, List.enum_eq_enumFrom, enumFrom_filter_length]
  | true =>
    cases hcs : colPresent data (fun r => hasKey r.sample_size) with
    | false =>
      have h1 : data.countP dvSampleFlag = 0 := by
        rw [dvSampleFlag_eq_qc]; exact countP_zero_col (sampleFlag_hasKey) hcs
      simp [hcy, hcs, h1, List.enum_eq_enumFrom, enumFrom_filter_length]
    | true => simp [hcy, hcs, List.enum_eq_enumFrom, enumFrom_filter_length]

/-- Counterexample to C5.  On a one-record collection whose only flaw is the
year 1700, QualityChecker's validity sub-score is 90 (one issue category times
10 points), while the claimed formula `max(0, 100 - flagged/total*100)` gives 0
under either lower bound, so the claim is false for `QualityChecker`. -/
theorem validity_formula_counterexample :
    (checkQuality [recYear1700] 2026).validity_score = 90 ∧
    specValidityScore 1800 [recYear1700] 2026 = 0 ∧
    specValidityScore 1900 [recYear1700] 2026 = 0 ∧
    (90 : ℚ) ≠ 0 := by
  have h1 : List.countP (qcYearFlag 2026) [recYear1700] = 1 := by decide
  have h2 : List.countP qcSampleFlag [recYear1700] = 0 := by decide
  have h3 : List.countP (specFlagged 1800 2026) [recYear1700] = 1 := by decide
  have h4 : List.countP (specFlagged 1900 2026) [recYear1700] = 1 := by decide
  refine ⟨?_, ?_, ?_, by norm_num⟩
  · show qcValidityScore [recYear1700] 2026 = 90
    rw [qcValidityScore, qcValidityIssues_length, h1, h2]
    norm_num
  · rw [specValidityScore, h3]
    norm_num
  · rw [specValidityScore, h4]
    norm_num

/-- C5 as amended.  For every nonempty collection: QualityChecker's validity
sub-score is `max(0, 100 - 10 * c)` where `c` counts the flagged categories
(at most one for invalid years with bounds [1800, current year], at most one
for nonpositive sample sizes) — not a per-record ratio; DataValidator's
validity sub-score is `max(0, 100 - f/total*100)` where `f` sums the per-check
flag counts with year bounds [1900, current year], a record failing both
checks counting twice. -/
theorem validity_formula_actual (data : List CRec) (cy : Int) (h : data ≠ []) :
    (checkQuality data cy).validity_score =
      max 0 (100 - (((if 0 < data.countP (qcYearFlag cy) then 1 else 0) +
        (if 0 < data.countP qcSampleFlag then 1 else 0) : ℕ) : ℚ) * 10) ∧
    dvValidityScore data cy =
      .ok (max 0 (100 - ((data.countP (dvYearFlag cy) + data.countP dvSampleFlag : ℕ) : ℚ) /
        (data.length : ℚ) * 100)) := by
  constructor
  · show qcValidityScore data cy = _
    rw [qcValidityScore, qcValidityIssues_length]
  · rw [dvValidityScore, if_neg (by simpa using h), dvValidity_total]

/-- Witness for C5 as amended: on the concrete one-record collection with year
1700, the formulas evaluate to validity 90 for QualityChecker and validity 0
for DataValidator. -/
theorem validity_formula_actual_witness :
    (checkQuality [recYear1700] 2026).validity_score = 90 ∧
    dvValidityScore [recYear1700] 2026 = .ok 0 := by
  have h := validity_formula_actual [recYear1700] 2026 (by decide)
  have h1 : List.countP (qcYearFlag 2026) [recYear1700] = 1 := by decide
  have h2 : List.countP qcSampleFlag [recYear1700] = 0 := by decide
  have h3 : List.countP (dvYearFlag 2026) [recYear1700] = 1 := by decide
  have h4 : List.countP dvSampleFlag [recYear1700] = 0 := by decide
  constructor
  · rw [h.1, h1, h2]
    norm_num
  · rw [h.2, h3, h4]
    norm_num

/-- C6.  For every raw record, the extracted full-text link list has no
duplicate strings; when a DOI was resolved it contains the synthesized
`https://doi.org/{doi}` entry exactly once; and when no DOI was resolved every
entry is one of the URLs collected from the source fields, so no synthesized
entry appears. -/
theorem full_text_links_spec (r : RawRecord) :
    (extractFullTextLinks r).Nodup ∧
    (∀ d, extractDoi r = some d →
      (extractFullTextLinks r).count ("https://doi.org/" ++ d) = 1) ∧
    (extractDoi r = none →
      ∀ u ∈ extractFullTextLinks r, u ∈ collectedUrls r) := by
  refine ⟨List.nodup_dedup _, ?_, ?_⟩
  · intro d hd
    refine List.count_eq_one_of_mem (List.nodup_dedup _) ?_
    rw [extractFullTextLinks, hd, List.mem_dedup]
    exact List.mem_append_right _ (List.mem_singleton_self _)
  · intro hd u hu
    rw [extractFullTextLinks, hd, List.mem_dedup, List.append_nil] at hu
    exact hu

/-- Witness for C6: on a concrete record with a DOI and one collected URL the
synthesized link occurs exactly once, and on a concrete record with no DOI and
a duplicated URL every extracted link was collected from the source fields. -/
theorem full_text_links_spec_witness :
    (extractFullTextLinks recDoiLinks).count ("https://doi.org/" ++ "10.1234/example.12345") = 1 ∧
    "https://a.example/p" ∈ collectedUrls recNoDoiLinks := by
  constructor
  · exact (full_text_links_spec recDoiLinks).2.1 "10.1234/example.12345" (by decide)
  · exact (full_text_links_spec recNoDoiLinks).2.2 (by decide) "https://a.example/p" (by decide)

/-- C7 evidence.  The code's DOI regex leaves the dot after `10` unescaped, so
`_extract_doi` returns the malformed value `10X5555/abc` from a field with no
canonical-syntax match (where the claim requires absent), and on a field whose
only canonical match is `10.5678/ok` it returns the earlier malformed
`10#1234/x` instead of that matched substring. -/
theorem doi_unescaped_dot_eval :
    extractDoi { DOI := some "10X5555/abc" } = some "10X5555/abc" ∧
    canonicalDoiSearch "10X5555/abc" = none ∧
    extractDoi { DOI := some "10#1234/x 10.5678/ok" } = some "10#1234/x" ∧
    canonicalDoiSearch "10#1234/x 10.5678/ok" = some "10.5678/ok" := by
  refine ⟨by decide, by decide, by decide, by decide⟩

/-- C8.  Study-type detection scans the categories in the fixed order RCT,
Cohort, Case-Control, Meta-Analysis, Systematic Review, Observational over the
lower-cased combined title/abstract/publication-type text and returns the
first category with a keyword substring hit; text with no keyword resolves to
absent.  In particular a hit on `randomized`/`randomised`/`rct` resolves to
RCT unconditionally, since RCT is checked first. -/
theorem study_type_order_spec (r : RawRecord) :
    (kwHit (studyText r) ["randomized", "randomised", "rct"] = true →
      detectStudyType r = some "RCT") ∧
    (kwHit (studyText r) ["randomized", "randomised", "rct"] = false →
      kwHit (studyText r) ["cohort", "longitudinal"] = true →
      detectStudyType r = some "Cohort") ∧
    (kwHit (studyText r) ["randomized", "randomised", "rct"] = false →
      kwHit (studyText r) ["cohort", "longitudinal"] = false →
      kwHit (studyText r) ["case-control", "case control"] = true →
      detectStudyType r = some "Case-Control") ∧
    (kwHit (studyText r) ["randomized", "randomised", "rct"] = false →
      kwHit (studyText r) ["cohort", "longitudinal"] = false →
      kwHit (studyText r) ["case-control", "case control"] = false →
      kwHit (studyText r) ["meta-analysis", "meta analysis"] = true →
      detectStudyType r = some "Meta-Analysis") ∧
    (kwHit (studyText r) ["randomized", "randomised", "rct"] = false →
      kwHit (studyText r) ["cohort", "longitudinal"] = false →
      kwHit (studyText r) ["case-control", "case control"] = false →
      kwHit (studyText r) ["meta-analysis", "meta analysis"] = false →
      kwHit (studyText r) ["systematic review"] = true →
      detectStudyType r = some "Systematic Review") ∧
    (kwHit (studyText r) ["randomized", "randomised", "rct"] = false →
      kwHit (studyText r) ["cohort", "longitudinal"] = false →
      kwHit (studyText r) ["case-control", "case control"] = false →
      kwHit (studyText r) ["meta-analysis", "meta analysis"] = false →
      kwHit (studyText r) ["systematic review"] = false →
      kwHit (studyText r) ["observational", "cross-sectional"] = true →
      detectStudyType r = some "Observational") ∧
    (kwHit (studyText r) ["randomized", "randomised", "rct"] = false →
      kwHit (studyText r) ["cohort", "longitudinal"] = false →
      kwHit (studyText r) ["case-control", "case control"] = false →
      kwHit (studyText r) ["meta-analysis", "meta analysis"] = false →
      kwHit (studyText r) ["systematic review"] = false →
      kwHit (studyText r) ["observational", "cross-sectional"] = false →
      detectStudyType r = none) := by
  refine ⟨?_, ?_, ?_, ?_, ?_, ?_, ?_⟩ <;>
    · intros
      simp [detectStudyType, studyTypesList, List.find?, *]

/-- Witness for C8: concrete titles resolve as the claim's examples state —
`A Randomized Controlled Trial` to RCT, `A Meta-Analysis` to Meta-Analysis and
the keyword-free `A Study` to absent. -/
theorem study_type_order_spec_witness :
    detectStudyType recRandomized = some "RCT" ∧
    detectStudyType recMeta = some "Meta-Analysis" ∧
    detectStudyType recPlain = none := by
  refine ⟨(study_type_order_spec recRandomized).1 (by decide), ?_, ?_⟩
  · exact (study_type_order_spec recMeta).2.2.2.1 (by decide) (by decide) (by decide) (by decide)
  · exact (study_type_order_spec recPlain).2.2.2.2.2.2 (by decide) (by decide) (by decide)
      (by decide) (by decide) (by decide)

/-- Helper: the imperative source loop accumulates exactly the tagged
successes, in order, after the prior results. -/
theorem processRecords_eq (src : String) :
    ∀ (l : List RawRecord) (acc : List TaggedResult),
      processRecords acc src l = acc ++ sourceSuccesses src l := by
  intro l
  induction l with
  | nil => intro acc; simp [processRecords, sourceSuccesses]
  | cons r rest ih =>
    intro acc
    cases hm : extractMetadata r with
    | ok m => simp [processRecords, hm, ih, sourceSuccesses]
    | error e => simp [processRecords, hm, ih, sourceSuccesses]

/-- C9.  Every batch run of `search_databases` completes (the function is
total): a record whose normalization fails is skipped without aborting the
batch, and the final collection is exactly the prior results followed by the
successfully normalized records of each enabled source, tagged with their
source names, in processing order. -/
theorem search_databases_partial_failure (acc : List TaggedResult)
    (pubmedArticles cochraneArticles ctArticles : List RawRecord)
    (includeCochrane includeClinicaltrials : Bool) :
    searchDatabases acc pubmedArticles cochraneArticles ctArticles
        includeCochrane includeClinicaltrials =
      acc ++ sourceSuccesses "pubmed" pubmedArticles ++
        (if includeCochrane then sourceSuccesses "cochrane" cochraneArticles else []) ++
        (if includeClinicaltrials then sourceSuccesses "clinicaltrials" ctArticles else []) := by
  cases includeCochrane <;> cases includeClinicaltrials <;>
    simp [searchDatabases, processRecords_eq, List.append_assoc]

/-- C10.  On every collection in which at least one record carries a `year`
key, `DataValidator.validate_all` returns the empty mapping: the
year-consistency check evaluates the undefined name `np`, and `validate_all`
converts the resulting `NameError` into an empty result instead of raising. -/
theorem validate_all_year_nameerror (data : List CRec) (currentYear : Int)
    (h : ∃ r ∈ data, r.year.isSome = true) :
    validateAll data currentYear = none := by
  obtain ⟨r, hr, hy⟩ := h
  have hcol : colPresent data (fun r => hasKey r.year) = true := by
    refine List.any_eq_true.mpr ⟨r, hr, ?_⟩
    cases hv : r.year with
    | none => rw [hv] at hy; simp at hy
    | some o => simp [hasKey, hv]
  simp [validateAll, dvConsistencyChecks, dvCheckYearConsistency, hcol]

/-- Witness for C10: the one-record collection whose record carries a `year`
key makes `validate_all` return the empty mapping. -/
theorem validate_all_year_nameerror_witness :
    validateAll [recWithYear] 2026 = none :=
  validate_all_year_nameerror [recWithYear] 2026 ⟨recWithYear, by decide, by decide⟩
